import Mathlib

/-!
Shallow embedding of `src/src/dev/devHpe1368a.c` (EPICS device support for the
HPE1368A VME digital I/O card) and verification of its specification claims.

The C file binds four record kinds (bi, bo, mbbi, mbbo) to a hardware driver.
Record structures carry only the fields this file touches.  The driver calls
`hpe1368a_bi_driver` / `hpe1368a_bo_driver` are external, so each embedded
function takes the driver as an oracle function argument; every function also
returns the list of external calls it made (driver calls and error-log calls),
so that claims about "no driver call" or "exactly one log" are statable.
Machine integers: the record mask fields are 32-bit unsigned in C, so shifts
into them are reduced `% 2^32`; statuses are C `long`, embedded as `Int`.
-/

/-- Modulus of a 32-bit unsigned record field (`unsigned long` on the vxWorks
target). -/
def UINT32_MOD : Nat := 2 ^ 32

/-- Modelled from the spec: the `VME_IO` link-type tag from the external
header `link.h` (not under src/); only its identity matters. -/
def VME_LINK : Nat := 2

/-- Modelled from the spec: the "bad field" configuration-error status
`S_db_badField` from the external header `dbAccess.h` (not under src/); a
fixed nonzero code whose exact numeric value is immaterial here. -/
def S_db_badField : Int := 15

/-- Modelled from the spec: read-alarm status code from the external header
`alarm.h` (not under src/). -/
def READ_ALARM : Nat := 1

/-- Modelled from the spec: write-alarm status code from the external header
`alarm.h` (not under src/). -/
def WRITE_ALARM : Nat := 2

/-- Modelled from the spec: invalid alarm severity from the external header
`alarm.h` (not under src/); the highest severity. -/
def INVALID_ALARM : Nat := 3

/-- A record link: the C `struct link` holds a type tag and a union; after
the tag check the code reads it as `struct vmeio` (card, signal).  We carry
the tag together with the vmeio view, mirroring the tagged union. -/
structure DbLink where
  linkType : Nat
  card : Nat
  signal : Nat
  deriving Repr, DecidableEq

/-- Fields of `struct biRecord` used by this file: input link, cached mask,
raw value, and the new alarm status/severity pair set by `recGblSetSevr`. -/
structure BiRecord where
  inp : DbLink
  mask : Nat
  rval : Nat
  nsta : Nat
  nsev : Nat
  deriving Repr, DecidableEq

/-- Fields of `struct boRecord` used by this file. -/
structure BoRecord where
  out : DbLink
  mask : Nat
  rval : Nat
  rbv : Nat
  nsta : Nat
  nsev : Nat
  deriving Repr, DecidableEq

/-- Fields of `struct mbbiRecord` used by this file. -/
structure MbbiRecord where
  inp : DbLink
  shft : Nat
  mask : Nat
  rval : Nat
  nsta : Nat
  nsev : Nat
  deriving Repr, DecidableEq

/-- Fields of `struct mbboRecord` used by this file. -/
structure MbboRecord where
  out : DbLink
  shft : Nat
  mask : Nat
  rval : Nat
  rbv : Nat
  nsta : Nat
  nsev : Nat
  deriving Repr, DecidableEq

/-- An external call made by the adapter: a read through
`hpe1368a_bi_driver`, a write through `hpe1368a_bo_driver`, or an error log
through `recGblRecordError`. -/
inductive Event where
  | biCall (card mask : Nat) (status : Int) (value : Nat)
  | boCall (card value mask : Nat) (status : Int)
  | recGblRecordError (status : Int) (msg : String)
  deriving Repr, DecidableEq

/-- Read-driver oracle: `hpe1368a_bi_driver(card, mask, &value)` returns a
status and stores a value; embedded as `card → mask → (status, value)`. -/
def BiDriver : Type := Nat → Nat → Int × Nat

/-- Write-driver oracle: `hpe1368a_bo_driver(card, value, mask)` returns a
status; embedded as `card → value → mask → status`. -/
def BoDriver : Type := Nat → Nat → Nat → Int

/-- Modelled from the spec: `recGblSetSevr` (external header, not under
src/) raises the record's alarm status/severity pair when the new severity
exceeds the current one; the spec calls this "raises a read/write alarm". -/
def setSevrBi (r : BiRecord) (sta sev : Nat) : BiRecord :=
  if r.nsev < sev then { r with nsta := sta, nsev := sev } else r

/-- Modelled from the spec: `recGblSetSevr` on a bo record. -/
def setSevrBo (r : BoRecord) (sta sev : Nat) : BoRecord :=
  if r.nsev < sev then { r with nsta := sta, nsev := sev } else r

/-- Modelled from the spec: `recGblSetSevr` on an mbbi record. -/
def setSevrMbbi (r : MbbiRecord) (sta sev : Nat) : MbbiRecord :=
  if r.nsev < sev then { r with nsta := sta, nsev := sev } else r

/-- Modelled from the spec: `recGblSetSevr` on an mbbo record. -/
def setSevrMbbo (r : MbboRecord) (sta sev : Nat) : MbboRecord :=
  if r.nsev < sev then { r with nsta := sta, nsev := sev } else r

/-- `init_bi`: if the INP link is VME I/O, cache `mask = 1 << signal` and
return 0; otherwise log one record error and return `S_db_badField`. -/
def init_bi (pbi : BiRecord) : Int × BiRecord × List Event :=
  if pbi.inp.linkType = VME_LINK then
    (0, { pbi with mask := (1 <<< pbi.inp.signal) % UINT32_MOD }, [])
  else
    (S_db_badField, pbi,
      [Event.recGblRecordError S_db_badField
        "devBiHpe1368a (init_record) Illegal INP field"])

/-- `read_bi`: call `hpe1368a_bi_driver(card, mask)`; on status 0 store the
value into `rval`, otherwise raise a READ_ALARM of INVALID severity;
return the driver status either way. -/
def read_bi (bi_driver : BiDriver) (pbi : BiRecord) :
    Int × BiRecord × List Event :=
  let sv := bi_driver pbi.inp.card pbi.mask
  let status := sv.1
  let value := sv.2
  let evs := [Event.biCall pbi.inp.card pbi.mask status value]
  if status = 0 then
    (status, { pbi with rval := value }, evs)
  else
    (status, setSevrBi pbi READ_ALARM INVALID_ALARM, evs)

/-- `init_bo`: if the OUT link is VME I/O, cache `mask = 1 << signal`, seed
the record by reading the hardware through `hpe1368a_bi_driver`; on read
status 0 set `rbv = rval = value`; return the read status.  A non-VME link
logs one record error and returns `S_db_badField`. -/
def init_bo (bi_driver : BiDriver) (pbo : BoRecord) :
    Int × BoRecord × List Event :=
  if pbo.out.linkType = VME_LINK then
    let pbo1 := { pbo with mask := (1 <<< pbo.out.signal) % UINT32_MOD }
    let sv := bi_driver pbo1.out.card pbo1.mask
    let status := sv.1
    let value := sv.2
    let evs := [Event.biCall pbo1.out.card pbo1.mask status value]
    if status = 0 then
      (status, { pbo1 with rbv := value, rval := value }, evs)
    else
      (status, pbo1, evs)
  else
    (S_db_badField, pbo,
      [Event.recGblRecordError S_db_badField
        "devBoHpe1368a (init_record) Illegal OUT field"])

/-- `write_bo`: call `hpe1368a_bo_driver(card, rval, mask)`; on nonzero
status raise a WRITE_ALARM of INVALID severity; return the status. -/
def write_bo (bo_driver : BoDriver) (pbo : BoRecord) :
    Int × BoRecord × List Event :=
  let status := bo_driver pbo.out.card pbo.rval pbo.mask
  let evs := [Event.boCall pbo.out.card pbo.rval pbo.mask status]
  if status ≠ 0 then
    (status, setSevrBo pbo WRITE_ALARM INVALID_ALARM, evs)
  else
    (status, pbo, evs)

/-- `init_mbbi`: if the INP link is VME I/O, set `shft = signal` and shift
the record's mask left by `shft`, returning 0; otherwise log one record
error and return `S_db_badField`. -/
def init_mbbi (pmbbi : MbbiRecord) : Int × MbbiRecord × List Event :=
  if pmbbi.inp.linkType = VME_LINK then
    let s := pmbbi.inp.signal
    (0, { pmbbi with shft := s, mask := (pmbbi.mask <<< s) % UINT32_MOD }, [])
  else
    (S_db_badField, pmbbi,
      [Event.recGblRecordError S_db_badField
        "devMbbiHpe1368a (init_record) Illegal INP field"])

/-- `read_mbbi`: call `hpe1368a_bi_driver(card, mask)`; on status 0 store
the value into `rval`, otherwise raise a READ_ALARM of INVALID severity;
return the driver status either way. -/
def read_mbbi (bi_driver : BiDriver) (pmbbi : MbbiRecord) :
    Int × MbbiRecord × List Event :=
  let sv := bi_driver pmbbi.inp.card pmbbi.mask
  let status := sv.1
  let value := sv.2
  let evs := [Event.biCall pmbbi.inp.card pmbbi.mask status value]
  if status = 0 then
    (status, { pmbbi with rval := value }, evs)
  else
    (status, setSevrMbbi pmbbi READ_ALARM INVALID_ALARM, evs)

/-- `init_mbbo`: if the OUT link is VME I/O, set `shft = signal`, shift the
record's mask left by `shft`, seed the record by reading the hardware; on
read status 0 set `rbv = rval = value`; return the read status.  A non-VME
link logs one record error and returns `S_db_badField`. -/
def init_mbbo (bi_driver : BiDriver) (pmbbo : MbboRecord) :
    Int × MbboRecord × List Event :=
  if pmbbo.out.linkType = VME_LINK then
    let s := pmbbo.out.signal
    let pm1 := { pmbbo with shft := s, mask := (pmbbo.mask <<< s) % UINT32_MOD }
    let sv := bi_driver pm1.out.card pm1.mask
    let status := sv.1
    let value := sv.2
    let evs := [Event.biCall pm1.out.card pm1.mask status value]
    if status = 0 then
      (status, { pm1 with rbv := value, rval := value }, evs)
    else
      (status, pm1, evs)
  else
    (S_db_badField, pmbbo,
      [Event.recGblRecordError S_db_badField
        "devMbboHpe1368a (init_record) Illegal OUT field"])

/-- `write_mbbo`: call `hpe1368a_bo_driver(card, rval, mask)`.  On write
status 0, immediately re-read the same mask through `hpe1368a_bi_driver`;
on re-read status 0 refresh `rbv`, otherwise raise a READ_ALARM of INVALID
severity.  On nonzero write status raise a WRITE_ALARM of INVALID severity.
The status returned is the last driver status obtained. -/
def write_mbbo (bo_driver : BoDriver) (bi_driver : BiDriver)
    (pmbbo : MbboRecord) : Int × MbboRecord × List Event :=
  let card := pmbbo.out.card
  let status := bo_driver card pmbbo.rval pmbbo.mask
  let evs := [Event.boCall card pmbbo.rval pmbbo.mask status]
  if status = 0 then
    let sv := bi_driver card pmbbo.mask
    let status2 := sv.1
    let value := sv.2
    let evs2 := evs ++ [Event.biCall card pmbbo.mask status2 value]
    if status2 = 0 then
      (status2, { pmbbo with rbv := value }, evs2)
    else
      (status2, setSevrMbbo pmbbo READ_ALARM INVALID_ALARM, evs2)
  else
    (status, setSevrMbbo pmbbo WRITE_ALARM INVALID_ALARM, evs)

/-! Concrete driver fixtures used to evaluate the embedded functions. -/

/-- A write driver that always succeeds. -/
def boDrvOk : BoDriver := fun _ _ _ => 0

/-- A read driver that always succeeds, returning the bits `0x08`. -/
def biDrvOk8 : BiDriver := fun _ _ => (0, 8)

/-- A read driver that always fails with status 7. -/
def biDrvFail7 : BiDriver := fun _ _ => (7, 0)

/-- C1 counterexample: with a succeeding write driver and a read driver that
fails with status 7, `write_mbbo` on a Bound mbbo record returns the nonzero
read status, not success, refuting the claim that the write status returned
is still 0. -/
theorem C1_counterexample :
    (write_mbbo boDrvOk biDrvFail7
      ⟨⟨VME_LINK, 2, 0⟩, 0, 3, 1, 0, 0, 0⟩).1 ≠ 0 := by decide

/-- C1 (amended): for a Bound mbbo record, if the driver write succeeds and
the immediately following readback of the same card and mask fails,
`write_mbbo` raises a read alarm of invalid severity, leaves `rval` and
`rbv` unchanged, and returns the nonzero readback status (the failed
re-read does replace the write's success status). -/
theorem C1_write_mbbo_readback_fail (bo_driver : BoDriver)
    (bi_driver : BiDriver) (r : MbboRecord)
    (hw : bo_driver r.out.card r.rval r.mask = 0)
    (hr : (bi_driver r.out.card r.mask).1 ≠ 0)
    (hs : r.nsev < INVALID_ALARM) :
    (write_mbbo bo_driver bi_driver r).1 = (bi_driver r.out.card r.mask).1 ∧
    (write_mbbo bo_driver bi_driver r).2.1.nsta = READ_ALARM ∧
    (write_mbbo bo_driver bi_driver r).2.1.nsev = INVALID_ALARM ∧
    (write_mbbo bo_driver bi_driver r).2.1.rval = r.rval ∧
    (write_mbbo bo_driver bi_driver r).2.1.rbv = r.rbv := by
  simp [write_mbbo, hw, hr, setSevrMbbo, hs]

/-- C1 witness: the amended theorem evaluated at a concrete record and
drivers. -/
theorem C1_write_mbbo_readback_fail_witness :
    (write_mbbo boDrvOk biDrvFail7 ⟨⟨VME_LINK, 2, 0⟩, 0, 3, 1, 0, 0, 0⟩).1 =
      (biDrvFail7 2 3).1 ∧
    (write_mbbo boDrvOk biDrvFail7
      ⟨⟨VME_LINK, 2, 0⟩, 0, 3, 1, 0, 0, 0⟩).2.1.nsta = READ_ALARM ∧
    (write_mbbo boDrvOk biDrvFail7
      ⟨⟨VME_LINK, 2, 0⟩, 0, 3, 1, 0, 0, 0⟩).2.1.nsev = INVALID_ALARM ∧
    (write_mbbo boDrvOk biDrvFail7
      ⟨⟨VME_LINK, 2, 0⟩, 0, 3, 1, 0, 0, 0⟩).2.1.rval = 1 ∧
    (write_mbbo boDrvOk biDrvFail7
      ⟨⟨VME_LINK, 2, 0⟩, 0, 3, 1, 0, 0, 0⟩).2.1.rbv = 0 :=
  C1_write_mbbo_readback_fail boDrvOk biDrvFail7
    ⟨⟨VME_LINK, 2, 0⟩, 0, 3, 1, 0, 0, 0⟩ (by decide) (by decide) (by decide)

/-- C2 counterexample: with card=2, signal=3 the computed mask is 0x08, and
when the driver returns (0, 0x08) the code stores the raw bits 0x08 into
`rval`, so `rval` does not become 1 as the claim states. -/
theorem C2_counterexample :
    (read_bi biDrvOk8
      ((init_bi ⟨⟨VME_LINK, 2, 3⟩, 0, 0, 0, 0⟩).2.1)).2.1.rval ≠ 1 := by
  decide

/-- C2 (amended): for a binary input record initialized with card=2 and
signal=3, the computed mask equals 0x08, and when the driver read returns
(status 0, value 0x08), `read_bi` makes the record's raw value become 0x08
(the masked bits, nonzero, so the bit is present) and raises no alarm. -/
theorem C2_read_bi_example :
    (init_bi ⟨⟨VME_LINK, 2, 3⟩, 0, 0, 0, 0⟩).2.1.mask = 8 ∧
    (read_bi biDrvOk8 ((init_bi ⟨⟨VME_LINK, 2, 3⟩, 0, 0, 0, 0⟩).2.1)).1 = 0 ∧
    (read_bi biDrvOk8
      ((init_bi ⟨⟨VME_LINK, 2, 3⟩, 0, 0, 0, 0⟩).2.1)).2.1.rval = 8 ∧
    (read_bi biDrvOk8
      ((init_bi ⟨⟨VME_LINK, 2, 3⟩, 0, 0, 0, 0⟩).2.1)).2.1.nsta = 0 ∧
    (read_bi biDrvOk8
      ((init_bi ⟨⟨VME_LINK, 2, 3⟩, 0, 0, 0, 0⟩).2.1)).2.1.nsev = 0 := by
  decide

/-- For `s < 32`, shifting 1 left by `s` fits in the 32-bit mask field. -/
theorem one_shiftLeft_mod32 (s : Nat) (hs : s < 32) :
    (1 <<< s) % UINT32_MOD = 1 <<< s := by
  apply Nat.mod_eq_of_lt
  rw [Nat.shiftLeft_eq, one_mul]
  exact Nat.pow_lt_pow_right (by norm_num) hs

/-- C3: for every signal number `s < 32`, initializing a binary input or
binary output record whose link is VME I/O with signal `s` stores
`mask = 1 <<< s` on the record, and `init_bi` returns status 0. -/
theorem C3_init_binary_mask (bi_driver : BiDriver) (rbi : BiRecord)
    (rbo : BoRecord) (s : Nat) (hs : s < 32)
    (hbt : rbi.inp.linkType = VME_LINK) (hbs : rbi.inp.signal = s)
    (hot : rbo.out.linkType = VME_LINK) (hos : rbo.out.signal = s) :
    (init_bi rbi).2.1.mask = 1 <<< s ∧
    (init_bi rbi).1 = 0 ∧
    (init_bo bi_driver rbo).2.1.mask = 1 <<< s := by
  refine ⟨?_, ?_, ?_⟩
  · simp [init_bi, hbt, hbs, one_shiftLeft_mod32 s hs]
  · simp [init_bi, hbt]
  · simp only [init_bo, hot, if_true]
    split <;> simp [hos, one_shiftLeft_mod32 s hs]

/-- C3 witness: the theorem evaluated at signal 3 on concrete records. -/
theorem C3_init_binary_mask_witness :
    (init_bi ⟨⟨VME_LINK, 2, 3⟩, 0, 0, 0, 0⟩).2.1.mask = 1 <<< 3 ∧
    (init_bi ⟨⟨VME_LINK, 2, 3⟩, 0, 0, 0, 0⟩).1 = 0 ∧
    (init_bo biDrvOk8 ⟨⟨VME_LINK, 2, 3⟩, 0, 0, 0, 0, 0⟩).2.1.mask = 1 <<< 3 :=
  C3_init_binary_mask biDrvOk8 ⟨⟨VME_LINK, 2, 3⟩, 0, 0, 0, 0⟩
    ⟨⟨VME_LINK, 2, 3⟩, 0, 0, 0, 0, 0⟩ 3 (by decide) rfl rfl rfl rfl

/-- C4: for every signal number `s`, initializing a multi-bit binary input
or output record whose link is VME I/O with signal `s` stores `shft = s`
and `mask = original_mask <<< s`, provided the shifted mask still fits in
the 32-bit mask field. -/
theorem C4_init_mbb_shift_mask (bi_driver : BiDriver) (ri : MbbiRecord)
    (ro : MbboRecord) (s : Nat)
    (hit : ri.inp.linkType = VME_LINK) (his : ri.inp.signal = s)
    (hot : ro.out.linkType = VME_LINK) (hos : ro.out.signal = s)
    (hif : ri.mask <<< s < UINT32_MOD) (hof : ro.mask <<< s < UINT32_MOD) :
    (init_mbbi ri).2.1.shft = s ∧
    (init_mbbi ri).2.1.mask = ri.mask <<< s ∧
    (init_mbbo bi_driver ro).2.1.shft = s ∧
    (init_mbbo bi_driver ro).2.1.mask = ro.mask <<< s := by
  refine ⟨?_, ?_, ?_, ?_⟩
  · simp [init_mbbi, hit, his]
  · simp [init_mbbi, hit, his, Nat.mod_eq_of_lt hif]
  · simp only [init_mbbo, hot, if_true]
    split <;> simp [hos]
  · simp only [init_mbbo, hot, if_true]
    split <;> simp [hos, Nat.mod_eq_of_lt hof]

/-- C4 witness: the theorem evaluated at signal 4 on concrete records with
original mask 0xF. -/
theorem C4_init_mbb_shift_mask_witness :
    (init_mbbi ⟨⟨VME_LINK, 1, 4⟩, 0, 15, 0, 0, 0⟩).2.1.shft = 4 ∧
    (init_mbbi ⟨⟨VME_LINK, 1, 4⟩, 0, 15, 0, 0, 0⟩).2.1.mask = 15 <<< 4 ∧
    (init_mbbo biDrvOk8 ⟨⟨VME_LINK, 1, 4⟩, 0, 15, 0, 0, 0, 0⟩).2.1.shft = 4 ∧
    (init_mbbo biDrvOk8 ⟨⟨VME_LINK, 1, 4⟩, 0, 15, 0, 0, 0, 0⟩).2.1.mask =
      15 <<< 4 :=
  C4_init_mbb_shift_mask biDrvOk8 ⟨⟨VME_LINK, 1, 4⟩, 0, 15, 0, 0, 0⟩
    ⟨⟨VME_LINK, 1, 4⟩, 0, 15, 0, 0, 0, 0⟩ 4 rfl rfl rfl rfl
    (by decide) (by decide)

/-- C5: for a record of any of the four kinds whose link type is not VME
I/O, the init function returns `S_db_badField` and leaves the record (in
particular its mask, and shift for multi-bit kinds) unmodified. -/
theorem C5_init_bad_link (bi_driver : BiDriver) (rbi : BiRecord)
    (rbo : BoRecord) (ri : MbbiRecord) (ro : MbboRecord)
    (h1 : rbi.inp.linkType ≠ VME_LINK) (h2 : rbo.out.linkType ≠ VME_LINK)
    (h3 : ri.inp.linkType ≠ VME_LINK) (h4 : ro.out.linkType ≠ VME_LINK) :
    (init_bi rbi).1 = S_db_badField ∧ (init_bi rbi).2.1 = rbi ∧
    (init_bo bi_driver rbo).1 = S_db_badField ∧
    (init_bo bi_driver rbo).2.1 = rbo ∧
    (init_mbbi ri).1 = S_db_badField ∧ (init_mbbi ri).2.1 = ri ∧
    (init_mbbo bi_driver ro).1 = S_db_badField ∧
    (init_mbbo bi_driver ro).2.1 = ro := by
  simp [init_bi, init_bo, init_mbbi, init_mbbo, h1, h2, h3, h4]

/-- C5 witness: the theorem evaluated on concrete records whose link type
is the constant-link tag 0. -/
theorem C5_init_bad_link_witness :
    (init_bi ⟨⟨0, 2, 3⟩, 9, 0, 0, 0⟩).1 = S_db_badField ∧
    (init_bi ⟨⟨0, 2, 3⟩, 9, 0, 0, 0⟩).2.1 = ⟨⟨0, 2, 3⟩, 9, 0, 0, 0⟩ ∧
    (init_bo biDrvOk8 ⟨⟨0, 2, 3⟩, 9, 0, 0, 0, 0⟩).1 = S_db_badField ∧
    (init_bo biDrvOk8 ⟨⟨0, 2, 3⟩, 9, 0, 0, 0, 0⟩).2.1 =
      ⟨⟨0, 2, 3⟩, 9, 0, 0, 0, 0⟩ ∧
    (init_mbbi ⟨⟨0, 2, 3⟩, 1, 9, 0, 0, 0⟩).1 = S_db_badField ∧
    (init_mbbi ⟨⟨0, 2, 3⟩, 1, 9, 0, 0, 0⟩).2.1 = ⟨⟨0, 2, 3⟩, 1, 9, 0, 0, 0⟩ ∧
    (init_mbbo biDrvOk8 ⟨⟨0, 2, 3⟩, 1, 9, 0, 0, 0, 0⟩).1 = S_db_badField ∧
    (init_mbbo biDrvOk8 ⟨⟨0, 2, 3⟩, 1, 9, 0, 0, 0, 0⟩).2.1 =
      ⟨⟨0, 2, 3⟩, 1, 9, 0, 0, 0, 0⟩ :=
  C5_init_bad_link biDrvOk8 ⟨⟨0, 2, 3⟩, 9, 0, 0, 0⟩
    ⟨⟨0, 2, 3⟩, 9, 0, 0, 0, 0⟩ ⟨⟨0, 2, 3⟩, 1, 9, 0, 0, 0⟩
    ⟨⟨0, 2, 3⟩, 1, 9, 0, 0, 0, 0⟩ (by decide) (by decide) (by decide)
    (by decide)

/-- C6: for Bound binary and multi-bit input records, the read functions
store the driver value into `rval` exactly when the driver status is 0 and
then change no alarm field; on nonzero status they leave `rval` untouched,
raise a read alarm of invalid severity, and return that status unchanged. -/
theorem C6_read_status_cases (bi_driver : BiDriver) (rbi : BiRecord)
    (ri : MbbiRecord)
    (hbsev : rbi.nsev < INVALID_ALARM) (hisev : ri.nsev < INVALID_ALARM) :
    ((bi_driver rbi.inp.card rbi.mask).1 = 0 →
      (read_bi bi_driver rbi).2.1 =
        { rbi with rval := (bi_driver rbi.inp.card rbi.mask).2 } ∧
      (read_bi bi_driver rbi).2.1.nsta = rbi.nsta ∧
      (read_bi bi_driver rbi).2.1.nsev = rbi.nsev ∧
      (read_bi bi_driver rbi).1 = 0) ∧
    ((bi_driver rbi.inp.card rbi.mask).1 ≠ 0 →
      (read_bi bi_driver rbi).2.1.rval = rbi.rval ∧
      (read_bi bi_driver rbi).2.1.nsta = READ_ALARM ∧
      (read_bi bi_driver rbi).2.1.nsev = INVALID_ALARM ∧
      (read_bi bi_driver rbi).1 = (bi_driver rbi.inp.card rbi.mask).1) ∧
    ((bi_driver ri.inp.card ri.mask).1 = 0 →
      (read_mbbi bi_driver ri).2.1 =
        { ri with rval := (bi_driver ri.inp.card ri.mask).2 } ∧
      (read_mbbi bi_driver ri).2.1.nsta = ri.nsta ∧
      (read_mbbi bi_driver ri).2.1.nsev = ri.nsev ∧
      (read_mbbi bi_driver ri).1 = 0) ∧
    ((bi_driver ri.inp.card ri.mask).1 ≠ 0 →
      (read_mbbi bi_driver ri).2.1.rval = ri.rval ∧
      (read_mbbi bi_driver ri).2.1.nsta = READ_ALARM ∧
      (read_mbbi bi_driver ri).2.1.nsev = INVALID_ALARM ∧
      (read_mbbi bi_driver ri).1 = (bi_driver ri.inp.card ri.mask).1) := by
  refine ⟨fun h => ?_, fun h => ?_, fun h => ?_, fun h => ?_⟩
  · simp [read_bi, h]
  · simp [read_bi, h, setSevrBi, hbsev]
  · simp [read_mbbi, h]
  · simp [read_mbbi, h, setSevrMbbi, hisev]

/-- C6 witness: the theorem evaluated on concrete Bound records with a
succeeding driver (the success implications fire; the failure implications
hold vacuously). -/
theorem C6_read_status_cases_witness :
    ((biDrvOk8 2 8).1 = 0 →
      (read_bi biDrvOk8 ⟨⟨VME_LINK, 2, 3⟩, 8, 0, 0, 0⟩).2.1 =
        { (⟨⟨VME_LINK, 2, 3⟩, 8, 0, 0, 0⟩ : BiRecord) with
            rval := (biDrvOk8 2 8).2 } ∧
      (read_bi biDrvOk8 ⟨⟨VME_LINK, 2, 3⟩, 8, 0, 0, 0⟩).2.1.nsta = 0 ∧
      (read_bi biDrvOk8 ⟨⟨VME_LINK, 2, 3⟩, 8, 0, 0, 0⟩).2.1.nsev = 0 ∧
      (read_bi biDrvOk8 ⟨⟨VME_LINK, 2, 3⟩, 8, 0, 0, 0⟩).1 = 0) ∧
    ((biDrvOk8 2 8).1 ≠ 0 →
      (read_bi biDrvOk8 ⟨⟨VME_LINK, 2, 3⟩, 8, 0, 0, 0⟩).2.1.rval = 0 ∧
      (read_bi biDrvOk8 ⟨⟨VME_LINK, 2, 3⟩, 8, 0, 0, 0⟩).2.1.nsta =
        READ_ALARM ∧
      (read_bi biDrvOk8 ⟨⟨VME_LINK, 2, 3⟩, 8, 0, 0, 0⟩).2.1.nsev =
        INVALID_ALARM ∧
      (read_bi biDrvOk8 ⟨⟨VME_LINK, 2, 3⟩, 8, 0, 0, 0⟩).1 =
        (biDrvOk8 2 8).1) ∧
    ((biDrvOk8 1 48).1 = 0 →
      (read_mbbi biDrvOk8 ⟨⟨VME_LINK, 1, 4⟩, 4, 48, 0, 0, 0⟩).2.1 =
        { (⟨⟨VME_LINK, 1, 4⟩, 4, 48, 0, 0, 0⟩ : MbbiRecord) with
            rval := (biDrvOk8 1 48).2 } ∧
      (read_mbbi biDrvOk8 ⟨⟨VME_LINK, 1, 4⟩, 4, 48, 0, 0, 0⟩).2.1.nsta = 0 ∧
      (read_mbbi biDrvOk8 ⟨⟨VME_LINK, 1, 4⟩, 4, 48, 0, 0, 0⟩).2.1.nsev = 0 ∧
      (read_mbbi biDrvOk8 ⟨⟨VME_LINK, 1, 4⟩, 4, 48, 0, 0, 0⟩).1 = 0) ∧
    ((biDrvOk8 1 48).1 ≠ 0 →
      (read_mbbi biDrvOk8 ⟨⟨VME_LINK, 1, 4⟩, 4, 48, 0, 0, 0⟩).2.1.rval = 0 ∧
      (read_mbbi biDrvOk8 ⟨⟨VME_LINK, 1, 4⟩, 4, 48, 0, 0, 0⟩).2.1.nsta =
        READ_ALARM ∧
      (read_mbbi biDrvOk8 ⟨⟨VME_LINK, 1, 4⟩, 4, 48, 0, 0, 0⟩).2.1.nsev =
        INVALID_ALARM ∧
      (read_mbbi biDrvOk8 ⟨⟨VME_LINK, 1, 4⟩, 4, 48, 0, 0, 0⟩).1 =
        (biDrvOk8 1 48).1) :=
  C6_read_status_cases biDrvOk8 ⟨⟨VME_LINK, 2, 3⟩, 8, 0, 0, 0⟩
    ⟨⟨VME_LINK, 1, 4⟩, 4, 48, 0, 0, 0⟩ (by decide) (by decide)

/-- C7: for a binary input record whose link type is not VME I/O, `init_bi`
returns `S_db_badField` and its external-call trace is exactly one
`recGblRecordError` log entry and nothing else: in particular no driver
call is made. -/
theorem C7_init_bi_bad_link_trace (rbi : BiRecord)
    (h : rbi.inp.linkType ≠ VME_LINK) :
    (init_bi rbi).1 = S_db_badField ∧
    (init_bi rbi).2.2 =
      [Event.recGblRecordError S_db_badField
        "devBiHpe1368a (init_record) Illegal INP field"] := by
  simp [init_bi, h]

/-- C7 witness: the theorem evaluated on a concrete record with a
constant-type link. -/
theorem C7_init_bi_bad_link_trace_witness :
    (init_bi ⟨⟨0, 2, 3⟩, 0, 0, 0, 0⟩).1 = S_db_badField ∧
    (init_bi ⟨⟨0, 2, 3⟩, 0, 0, 0, 0⟩).2.2 =
      [Event.recGblRecordError S_db_badField
        "devBiHpe1368a (init_record) Illegal INP field"] :=
  C7_init_bi_bad_link_trace ⟨⟨0, 2, 3⟩, 0, 0, 0, 0⟩ (by decide)

/-- C8: for output records (bo and mbbo) whose link is VME I/O,
initialization performs exactly one read through `hpe1368a_bi_driver` with
the computed mask; if that read returns status 0 then both `rval` and `rbv`
are set to the value read and 0 is returned, and if it returns a nonzero
status then that status is returned as the init result. -/
theorem C8_init_output_seed (bi_driver : BiDriver) (rbo : BoRecord)
    (ro : MbboRecord)
    (hbt : rbo.out.linkType = VME_LINK) (hot : ro.out.linkType = VME_LINK) :
    (init_bo bi_driver rbo).2.2 =
      [Event.biCall rbo.out.card ((1 <<< rbo.out.signal) % UINT32_MOD)
        (bi_driver rbo.out.card ((1 <<< rbo.out.signal) % UINT32_MOD)).1
        (bi_driver rbo.out.card ((1 <<< rbo.out.signal) % UINT32_MOD)).2] ∧
    ((bi_driver rbo.out.card ((1 <<< rbo.out.signal) % UINT32_MOD)).1 = 0 →
      (init_bo bi_driver rbo).2.1.rval =
        (bi_driver rbo.out.card ((1 <<< rbo.out.signal) % UINT32_MOD)).2 ∧
      (init_bo bi_driver rbo).2.1.rbv =
        (bi_driver rbo.out.card ((1 <<< rbo.out.signal) % UINT32_MOD)).2 ∧
      (init_bo bi_driver rbo).1 = 0) ∧
    ((bi_driver rbo.out.card ((1 <<< rbo.out.signal) % UINT32_MOD)).1 ≠ 0 →
      (init_bo bi_driver rbo).1 =
        (bi_driver rbo.out.card ((1 <<< rbo.out.signal) % UINT32_MOD)).1) ∧
    (init_mbbo bi_driver ro).2.2 =
      [Event.biCall ro.out.card ((ro.mask <<< ro.out.signal) % UINT32_MOD)
        (bi_driver ro.out.card ((ro.mask <<< ro.out.signal) % UINT32_MOD)).1
        (bi_driver ro.out.card
          ((ro.mask <<< ro.out.signal) % UINT32_MOD)).2] ∧
    ((bi_driver ro.out.card ((ro.mask <<< ro.out.signal) % UINT32_MOD)).1 =
        0 →
      (init_mbbo bi_driver ro).2.1.rval =
        (bi_driver ro.out.card ((ro.mask <<< ro.out.signal) % UINT32_MOD)).2 ∧
      (init_mbbo bi_driver ro).2.1.rbv =
        (bi_driver ro.out.card ((ro.mask <<< ro.out.signal) % UINT32_MOD)).2 ∧
      (init_mbbo bi_driver ro).1 = 0) ∧
    ((bi_driver ro.out.card ((ro.mask <<< ro.out.signal) % UINT32_MOD)).1 ≠
        0 →
      (init_mbbo bi_driver ro).1 =
        (bi_driver ro.out.card
          ((ro.mask <<< ro.out.signal) % UINT32_MOD)).1) := by
  refine ⟨?_, fun h => ?_, fun h => ?_, ?_, fun h => ?_, fun h => ?_⟩
  · simp only [init_bo, hbt, if_true]
    split <;> rfl
  · simp [init_bo, hbt, h]
  · simp [init_bo, hbt, h]
  · simp only [init_mbbo, hot, if_true]
    split <;> rfl
  · simp [init_mbbo, hot, h]
  · simp [init_mbbo, hot, h]

/-- C8 witness: the theorem evaluated on concrete records with the
always-succeeding read driver (the success implications fire; the failure
implications hold vacuously). -/
theorem C8_init_output_seed_witness :
    (init_bo biDrvOk8 ⟨⟨VME_LINK, 2, 3⟩, 0, 0, 0, 0, 0⟩).2.2 =
      [Event.biCall 2 ((1 <<< 3) % UINT32_MOD)
        (biDrvOk8 2 ((1 <<< 3) % UINT32_MOD)).1
        (biDrvOk8 2 ((1 <<< 3) % UINT32_MOD)).2] ∧
    ((biDrvOk8 2 ((1 <<< 3) % UINT32_MOD)).1 = 0 →
      (init_bo biDrvOk8 ⟨⟨VME_LINK, 2, 3⟩, 0, 0, 0, 0, 0⟩).2.1.rval =
        (biDrvOk8 2 ((1 <<< 3) % UINT32_MOD)).2 ∧
      (init_bo biDrvOk8 ⟨⟨VME_LINK, 2, 3⟩, 0, 0, 0, 0, 0⟩).2.1.rbv =
        (biDrvOk8 2 ((1 <<< 3) % UINT32_MOD)).2 ∧
      (init_bo biDrvOk8 ⟨⟨VME_LINK, 2, 3⟩, 0, 0, 0, 0, 0⟩).1 = 0) ∧
    ((biDrvOk8 2 ((1 <<< 3) % UINT32_MOD)).1 ≠ 0 →
      (init_bo biDrvOk8 ⟨⟨VME_LINK, 2, 3⟩, 0, 0, 0, 0, 0⟩).1 =
        (biDrvOk8 2 ((1 <<< 3) % UINT32_MOD)).1) ∧
    (init_mbbo biDrvOk8 ⟨⟨VME_LINK, 1, 4⟩, 0, 15, 0, 0, 0, 0⟩).2.2 =
      [Event.biCall 1 ((15 <<< 4) % UINT32_MOD)
        (biDrvOk8 1 ((15 <<< 4) % UINT32_MOD)).1
        (biDrvOk8 1 ((15 <<< 4) % UINT32_MOD)).2] ∧
    ((biDrvOk8 1 ((15 <<< 4) % UINT32_MOD)).1 = 0 →
      (init_mbbo biDrvOk8 ⟨⟨VME_LINK, 1, 4⟩, 0, 15, 0, 0, 0, 0⟩).2.1.rval =
        (biDrvOk8 1 ((15 <<< 4) % UINT32_MOD)).2 ∧
      (init_mbbo biDrvOk8 ⟨⟨VME_LINK, 1, 4⟩, 0, 15, 0, 0, 0, 0⟩).2.1.rbv =
        (biDrvOk8 1 ((15 <<< 4) % UINT32_MOD)).2 ∧
      (init_mbbo biDrvOk8 ⟨⟨VME_LINK, 1, 4⟩, 0, 15, 0, 0, 0, 0⟩).1 = 0) ∧
    ((biDrvOk8 1 ((15 <<< 4) % UINT32_MOD)).1 ≠ 0 →
      (init_mbbo biDrvOk8 ⟨⟨VME_LINK, 1, 4⟩, 0, 15, 0, 0, 0, 0⟩).1 =
        (biDrvOk8 1 ((15 <<< 4) % UINT32_MOD)).1) :=
  C8_init_output_seed biDrvOk8 ⟨⟨VME_LINK, 2, 3⟩, 0, 0, 0, 0, 0⟩
    ⟨⟨VME_LINK, 1, 4⟩, 0, 15, 0, 0, 0, 0⟩ rfl rfl

/-- C9: for a Bound binary output record, `write_bo` never modifies `rval`,
`rbv`, `mask` or the link: on driver status 0 it changes no record field at
all, and on nonzero status it only raises a write alarm of invalid severity
and returns that status unchanged. -/
theorem C9_write_bo_frame (bo_driver : BoDriver) (r : BoRecord)
    (hs : r.nsev < INVALID_ALARM) :
    (write_bo bo_driver r).2.1.rval = r.rval ∧
    (write_bo bo_driver r).2.1.rbv = r.rbv ∧
    (write_bo bo_driver r).2.1.mask = r.mask ∧
    (write_bo bo_driver r).2.1.out = r.out ∧
    (bo_driver r.out.card r.rval r.mask = 0 →
      (write_bo bo_driver r).2.1 = r) ∧
    (bo_driver r.out.card r.rval r.mask ≠ 0 →
      (write_bo bo_driver r).2.1.nsta = WRITE_ALARM ∧
      (write_bo bo_driver r).2.1.nsev = INVALID_ALARM ∧
      (write_bo bo_driver r).1 = bo_driver r.out.card r.rval r.mask) := by
  by_cases h : bo_driver r.out.card r.rval r.mask = 0
  · simp [write_bo, h]
  · simp [write_bo, h, setSevrBo, hs]

/-- C9 witness: the theorem evaluated on a concrete Bound record with the
always-succeeding write driver. -/
theorem C9_write_bo_frame_witness :
    (write_bo boDrvOk ⟨⟨VME_LINK, 2, 3⟩, 8, 1, 0, 0, 0⟩).2.1.rval = 1 ∧
    (write_bo boDrvOk ⟨⟨VME_LINK, 2, 3⟩, 8, 1, 0, 0, 0⟩).2.1.rbv = 0 ∧
    (write_bo boDrvOk ⟨⟨VME_LINK, 2, 3⟩, 8, 1, 0, 0, 0⟩).2.1.mask = 8 ∧
    (write_bo boDrvOk ⟨⟨VME_LINK, 2, 3⟩, 8, 1, 0, 0, 0⟩).2.1.out =
      ⟨VME_LINK, 2, 3⟩ ∧
    (boDrvOk 2 1 8 = 0 →
      (write_bo boDrvOk ⟨⟨VME_LINK, 2, 3⟩, 8, 1, 0, 0, 0⟩).2.1 =
        ⟨⟨VME_LINK, 2, 3⟩, 8, 1, 0, 0, 0⟩) ∧
    (boDrvOk 2 1 8 ≠ 0 →
      (write_bo boDrvOk ⟨⟨VME_LINK, 2, 3⟩, 8, 1, 0, 0, 0⟩).2.1.nsta =
        WRITE_ALARM ∧
      (write_bo boDrvOk ⟨⟨VME_LINK, 2, 3⟩, 8, 1, 0, 0, 0⟩).2.1.nsev =
        INVALID_ALARM ∧
      (write_bo boDrvOk ⟨⟨VME_LINK, 2, 3⟩, 8, 1, 0, 0, 0⟩).1 =
        boDrvOk 2 1 8) :=
  C9_write_bo_frame boDrvOk ⟨⟨VME_LINK, 2, 3⟩, 8, 1, 0, 0, 0⟩ (by decide)

/-- C10: for output records whose link is VME I/O, when the seed read
performed during initialization fails, the mask (and shift, for mbbo) have
nevertheless already been stored on the record before the nonzero status is
returned, while `rval` and `rbv` are left unchanged. -/
theorem C10_init_output_fail_partial (bi_driver : BiDriver) (rbo : BoRecord)
    (ro : MbboRecord)
    (hbt : rbo.out.linkType = VME_LINK) (hot : ro.out.linkType = VME_LINK)
    (hfb : (bi_driver rbo.out.card
      ((1 <<< rbo.out.signal) % UINT32_MOD)).1 ≠ 0)
    (hfo : (bi_driver ro.out.card
      ((ro.mask <<< ro.out.signal) % UINT32_MOD)).1 ≠ 0) :
    (init_bo bi_driver rbo).2.1.mask =
      (1 <<< rbo.out.signal) % UINT32_MOD ∧
    (init_bo bi_driver rbo).2.1.rval = rbo.rval ∧
    (init_bo bi_driver rbo).2.1.rbv = rbo.rbv ∧
    (init_bo bi_driver rbo).1 =
      (bi_driver rbo.out.card ((1 <<< rbo.out.signal) % UINT32_MOD)).1 ∧
    (init_mbbo bi_driver ro).2.1.shft = ro.out.signal ∧
    (init_mbbo bi_driver ro).2.1.mask =
      (ro.mask <<< ro.out.signal) % UINT32_MOD ∧
    (init_mbbo bi_driver ro).2.1.rval = ro.rval ∧
    (init_mbbo bi_driver ro).2.1.rbv = ro.rbv ∧
    (init_mbbo bi_driver ro).1 =
      (bi_driver ro.out.card ((ro.mask <<< ro.out.signal) % UINT32_MOD)).1 := by
  simp [init_bo, init_mbbo, hbt, hot, hfb, hfo]

/-- C10 witness: the theorem evaluated on concrete records with the
always-failing read driver. -/
theorem C10_init_output_fail_partial_witness :
    (init_bo biDrvFail7 ⟨⟨VME_LINK, 2, 3⟩, 0, 5, 6, 0, 0⟩).2.1.mask =
      (1 <<< 3) % UINT32_MOD ∧
    (init_bo biDrvFail7 ⟨⟨VME_LINK, 2, 3⟩, 0, 5, 6, 0, 0⟩).2.1.rval = 5 ∧
    (init_bo biDrvFail7 ⟨⟨VME_LINK, 2, 3⟩, 0, 5, 6, 0, 0⟩).2.1.rbv = 6 ∧
    (init_bo biDrvFail7 ⟨⟨VME_LINK, 2, 3⟩, 0, 5, 6, 0, 0⟩).1 =
      (biDrvFail7 2 ((1 <<< 3) % UINT32_MOD)).1 ∧
    (init_mbbo biDrvFail7 ⟨⟨VME_LINK, 1, 4⟩, 0, 15, 5, 6, 0, 0⟩).2.1.shft =
      4 ∧
    (init_mbbo biDrvFail7 ⟨⟨VME_LINK, 1, 4⟩, 0, 15, 5, 6, 0, 0⟩).2.1.mask =
      (15 <<< 4) % UINT32_MOD ∧
    (init_mbbo biDrvFail7 ⟨⟨VME_LINK, 1, 4⟩, 0, 15, 5, 6, 0, 0⟩).2.1.rval =
      5 ∧
    (init_mbbo biDrvFail7 ⟨⟨VME_LINK, 1, 4⟩, 0, 15, 5, 6, 0, 0⟩).2.1.rbv =
      6 ∧
    (init_mbbo biDrvFail7 ⟨⟨VME_LINK, 1, 4⟩, 0, 15, 5, 6, 0, 0⟩).1 =
      (biDrvFail7 1 ((15 <<< 4) % UINT32_MOD)).1 :=
  C10_init_output_fail_partial biDrvFail7 ⟨⟨VME_LINK, 2, 3⟩, 0, 5, 6, 0, 0⟩
    ⟨⟨VME_LINK, 1, 4⟩, 0, 15, 5, 6, 0, 0⟩ rfl rfl (by decide) (by decide)
